import Mathlib

/-!
Verification development for the plat-wise OAuth token lifecycle
(oauth source segment of the repository: Token, OAuthClient, TokenManager).

Modelling conventions:
* Instants (Go time.Time) are integers counting nanoseconds; the zero value
  of time.Time is the instant 0.  Durations (Go time.Duration) are integer
  nanosecond counts, so 5*time.Minute is 300 * 10^9.
* Go strings are Lean Strings; where Go iterates the raw bytes of a string
  (URL escaping, sort.Strings) we use the UTF-8 byte sequence, computed by
  utf8Bytes below.
* Network I/O is an oracle: the HTTP response that the token endpoint would
  produce, and the result that json.Unmarshal would produce on its body, are
  passed in as explicit arguments.  The pure response-handling logic is the
  translated code.
* Fallible Go functions returning (T, error) become Except.
-/

namespace Wise

/-- Nanoseconds in one second (Go time.Second). -/
def nsPerSecond : Int := 1000000000

/-- Five minutes as a Go duration in nanoseconds (5 * time.Minute). -/
def fiveMinutes : Int := 300 * nsPerSecond

/-- Token, from the source: an OAuth access token response.  ExpiresAt is the
derived absolute expiry instant (json tag "-", so json.Unmarshal leaves it at
the zero value 0). -/
structure Token where
  accessToken : String
  tokenType : String
  refreshToken : String
  expiresIn : Int
  scope : String
  expiresAt : Int
deriving Repr, DecidableEq

/-- Token.IsExpired from the source:
return time.Now().Add(5 * time.Minute).After(t.ExpiresAt).
Go Time.After is a strict comparison, so this is now + 5min > ExpiresAt.
The current wall-clock instant is the explicit argument now. -/
def Token.isExpired (t : Token) (now : Int) : Bool :=
  decide (t.expiresAt < now + fiveMinutes)

/-- OAuthConfig from the source. -/
structure OAuthConfig where
  clientID : String
  clientSecret : String
  redirectURL : String
  sandbox : Bool
  scopes : List String
deriving Repr, DecidableEq

/-- Errors produced by OAuthClient.tokenRequest.  authExchangeFailed carries
the HTTP status line and the raw response body, as in
fmt.Errorf("token request failed: %s - %s", resp.Status, string(body));
parseFailure models the json.Unmarshal error branch. -/
inductive TokenRequestError where
  | authExchangeFailed (status : String) (body : String)
  | parseFailure (body : String)
deriving Repr, DecidableEq

/-- An HTTP response as seen by tokenRequest: numeric status code, status
line, and raw body bytes (as a string, as the source does). -/
structure HTTPResponse where
  statusCode : Nat
  status : String
  body : String
deriving Repr, DecidableEq

/-- Response handling of OAuthClient.tokenRequest from the source.  The
request construction and transport are the oracle: resp is the response the
token endpoint returned, parsed is the result json.Unmarshal produced on
resp.body (none for a parse error), and now is the instant of receipt
(time.Now() at the expiry computation).  On statusCode >= 400 it fails with
the status and raw body; otherwise it returns the parsed token with
ExpiresAt := now + ExpiresIn seconds
(token.ExpiresAt = time.Now().Add(time.Duration(token.ExpiresIn)*time.Second)). -/
def tokenRequest (resp : HTTPResponse) (parsed : Option Token) (now : Int) :
    Except TokenRequestError Token :=
  if resp.statusCode ≥ 400 then
    .error (.authExchangeFailed resp.status resp.body)
  else
    match parsed with
    | none => .error (.parseFailure resp.body)
    | some tok => .ok { tok with expiresAt := now + tok.expiresIn * nsPerSecond }

/-- Errors returned by TokenManager.GetToken, one constructor per return nil
branch of the source: no token available; token expired and no refresh token
available; refreshing token: %w (wrapping the OAuth client error). -/
inductive GetTokenError where
  | noTokenAvailable
  | refreshUnavailable
  | refreshFailed (e : TokenRequestError)
deriving Repr, DecidableEq

/-- TokenManager state from the source: the current token (nil when never
set) and whether a refresh callback is registered (onTokenRefresh != nil).
The OAuthClient reference is not part of the state relevant here; its
network behaviour enters GetToken as an oracle argument. -/
structure TokenManager where
  token : Option Token
  hasCallback : Bool
deriving Repr, DecidableEq

instance {ε α : Type} [DecidableEq ε] [DecidableEq α] : DecidableEq (Except ε α) := fun x y =>
  match x, y with
  | .ok a, .ok b =>
    if h : a = b then isTrue (by simp [h]) else isFalse (by simp [h])
  | .error a, .error b =>
    if h : a = b then isTrue (by simp [h]) else isFalse (by simp [h])
  | .ok _, .error _ => isFalse (by simp)
  | .error _, .ok _ => isFalse (by simp)

/-- Observable outcome of one TokenManager.GetToken call: the returned value,
the manager state afterwards, the number of refresh network calls performed
(m.oauth.RefreshToken invocations), and the tokens the refresh callback was
invoked with, in order. -/
structure GetTokenResult where
  result : Except GetTokenError Token
  manager : TokenManager
  networkCalls : Nat
  callbackInvocations : List Token
deriving Repr, DecidableEq

/-- TokenManager.GetToken from the source, sequential execution.  now is the
wall-clock instant; refreshOutcome is the oracle for what
m.oauth.RefreshToken(ctx, m.token.RefreshToken) would return (consulted only
if the code reaches that call).  Mirrors the source line by line:
nil check, freshness check, refresh-credential check, refresh, store,
callback, return. -/
def TokenManager.getToken (m : TokenManager) (now : Int)
    (refreshOutcome : Except TokenRequestError Token) : GetTokenResult :=
  match m.token with
  | none => ⟨.error .noTokenAvailable, m, 0, []⟩
  | some t =>
    if !(t.isExpired now) then
      ⟨.ok t, m, 0, []⟩
    else if t.refreshToken = "" then
      ⟨.error .refreshUnavailable, m, 0, []⟩
    else
      match refreshOutcome with
      | .error e => ⟨.error (.refreshFailed e), m, 1, []⟩
      | .ok newToken =>
        ⟨.ok newToken, { m with token := some newToken }, 1,
          if m.hasCallback then [newToken] else []⟩

/-! URL construction (OAuthClient.AuthURL).  The source uses net/url:
params.Set on a url.Values map and params.Encode(), which sorts the keys
(sort.Strings, byte-wise lexicographic) and writes
QueryEscape(key)=QueryEscape(value) joined by ampersands.  QueryEscape works
on the UTF-8 bytes of the string: ASCII letters, digits and the four marks
dash, underscore, dot, tilde pass through, a space becomes a plus, every
other byte becomes a percent sign and two uppercase hex digits. -/

/-- UTF-8 encoding of one character as its byte values. -/
def charUtf8Bytes (c : Char) : List Nat :=
  let n := c.toNat
  if n < 0x80 then [n]
  else if n < 0x800 then
    [0xC0 + n / 64, 0x80 + n % 64]
  else if n < 0x10000 then
    [0xE0 + n / 4096, 0x80 + (n / 64) % 64, 0x80 + n % 64]
  else
    [0xF0 + n / 262144, 0x80 + (n / 4096) % 64, 0x80 + (n / 64) % 64, 0x80 + n % 64]

/-- The UTF-8 bytes of a string, the sequence Go ranges over when it indexes
a string by byte. -/
def utf8Bytes (s : String) : List Nat :=
  s.data.flatMap charUtf8Bytes

/-- Bytes that url.QueryEscape leaves unescaped (shouldEscape returns false
for the query component): ASCII alphanumerics and dash, underscore, dot,
tilde. -/
def isQueryUnescaped (b : Nat) : Bool :=
  (0x41 ≤ b && b ≤ 0x5A) || (0x61 ≤ b && b ≤ 0x7A) || (0x30 ≤ b && b ≤ 0x39) ||
  b == 0x2D || b == 0x5F || b == 0x2E || b == 0x7E

/-- Uppercase hexadecimal digit for a value below 16, as in Go upperhex. -/
def upperHexDigit (n : Nat) : Char :=
  if n < 10 then Char.ofNat (0x30 + n) else Char.ofNat (0x41 + (n - 10))

/-- Escaping of a single byte by url.QueryEscape: pass through, plus for
space, else percent and two uppercase hex digits. -/
def escapeByte (b : Nat) : String :=
  if isQueryUnescaped b then String.singleton (Char.ofNat b)
  else if b == 0x20 then "+"
  else "%" ++ String.singleton (upperHexDigit (b / 16)) ++ String.singleton (upperHexDigit (b % 16))

/-- url.QueryEscape from net/url, modelled byte-wise over the UTF-8 bytes. -/
def queryEscape (s : String) : String :=
  ((utf8Bytes s).map escapeByte).foldl (fun acc part => acc ++ part) ""

/-- Byte-wise lexicographic order on byte sequences, the order sort.Strings
uses on Go strings. -/
def bytesLe : List Nat → List Nat → Bool
  | [], _ => true
  | _ :: _, [] => false
  | a :: as, b :: bs => if a < b then true else if b < a then false else bytesLe as bs

/-- Go string comparison (byte-wise on UTF-8 bytes), as used by
sort.Strings inside url.Values.Encode. -/
def keyLe (a b : String) : Bool :=
  bytesLe (utf8Bytes a) (utf8Bytes b)

/-- Insertion into a key-sorted association list. -/
def insertSorted (p : String × String) : List (String × String) → List (String × String)
  | [] => [p]
  | q :: rest => if keyLe p.1 q.1 then p :: q :: rest else q :: insertSorted p rest

/-- Sorting an association list by key, the effect of sort.Strings on the
keys of the url.Values map (each key here has exactly one value, as
params.Set is used throughout AuthURL). -/
def sortByKey (l : List (String × String)) : List (String × String) :=
  l.foldr insertSorted []

/-- Writing of the sorted entries by url.Values.Encode:
QueryEscape(key)=QueryEscape(value), with an ampersand before every entry
except the first. -/
def encodePairs : List (String × String) → String
  | [] => ""
  | [(k, v)] => queryEscape k ++ "=" ++ queryEscape v
  | (k, v) :: rest => queryEscape k ++ "=" ++ queryEscape v ++ "&" ++ encodePairs rest

/-- url.Values.Encode from net/url for a map with one value per key. -/
def valuesEncode (l : List (String × String)) : String :=
  encodePairs (sortByKey l)

/-- The production authorize endpoint constant from the source. -/
def ProductionAuthURL : String := "https://wise.com/oauth/authorize"

/-- The sandbox authorize endpoint constant from the source. -/
def SandboxAuthURL : String := "https://sandbox.transferwise.tech/oauth/authorize"

/-- OAuthClient.AuthURL from the source: pick the environment's authorize
endpoint, set client_id, redirect_uri, response_type=code, state, and scope
(space-joined, only when len(Scopes) > 0), and return
authURL + "?" + params.Encode(). -/
def authURL (c : OAuthConfig) (state : String) : String :=
  let base := if c.sandbox then SandboxAuthURL else ProductionAuthURL
  let params :=
    [("client_id", c.clientID), ("redirect_uri", c.redirectURL),
     ("response_type", "code"), ("state", state)] ++
    (if c.scopes.length > 0 then [("scope", String.intercalate " " c.scopes)] else [])
  base ++ "?" ++ valuesEncode params

/-! Concurrent execution of TokenManager.GetToken.  The source guards the
check-expiry, refresh, replace sequence with no mutex: the TokenManager
struct has no lock field and GetToken takes none.  Two callers running
GetToken concurrently therefore interleave at the Go memory operations.  We
model each caller as a small program counter over the body of GetToken,
with the shared m.token field and the count of refresh network calls in a
common state, and execute an arbitrary interleaving given as a schedule of
caller identifiers. -/

/-- Local state of one caller inside TokenManager.GetToken: program counter
(0 = about to run the nil, freshness and refresh-credential checks;
1 = about to call m.oauth.RefreshToken on the network; 2 = about to store
the received token and run the callback; 3 = returned), the token received
from the network, and the caller's return value once it finishes. -/
structure CallerState where
  pc : Nat
  received : Option Token
  result : Option (Except GetTokenError Token)
deriving Repr, DecidableEq

/-- Shared state of a two-caller run of GetToken on one TokenManager:
the shared m.token field, the total number of refresh network calls made,
and both callers. -/
structure ConcurrentState where
  shared : Option Token
  networkCalls : Nat
  caller0 : CallerState
  caller1 : CallerState
deriving Repr, DecidableEq

/-- One atomic step of a caller executing the body of GetToken.  now is the
wall clock; freshAt n is the token the authorization server issues for the
n-th refresh network call (the server issues each call its own token).
Returns the updated shared token, network-call count and caller state. -/
def stepCaller (now : Int) (freshAt : Nat → Token) (shared : Option Token)
    (calls : Nat) (c : CallerState) : Option Token × Nat × CallerState :=
  match c.pc with
  | 0 =>
    match shared with
    | none => (shared, calls, { c with pc := 3, result := some (.error .noTokenAvailable) })
    | some t =>
      if !(t.isExpired now) then
        (shared, calls, { c with pc := 3, result := some (.ok t) })
      else if t.refreshToken = "" then
        (shared, calls, { c with pc := 3, result := some (.error .refreshUnavailable) })
      else
        (shared, calls, { c with pc := 1 })
  | 1 => (shared, calls + 1, { c with pc := 2, received := some (freshAt calls) })
  | 2 =>
    match c.received with
    | some nt => (some nt, calls, { c with pc := 3, result := some (.ok nt) })
    | none => (shared, calls, { c with pc := 3 })
  | _ => (shared, calls, c)

/-- One step of the two-caller system: the scheduled caller (false = caller0,
true = caller1) executes its next atomic step of GetToken. -/
def stepSystem (now : Int) (freshAt : Nat → Token) (s : ConcurrentState)
    (who : Bool) : ConcurrentState :=
  if who then
    let r := stepCaller now freshAt s.shared s.networkCalls s.caller1
    { s with shared := r.1, networkCalls := r.2.1, caller1 := r.2.2 }
  else
    let r := stepCaller now freshAt s.shared s.networkCalls s.caller0
    { s with shared := r.1, networkCalls := r.2.1, caller0 := r.2.2 }

/-- Run of the two-caller system under a schedule of caller identifiers. -/
def runSchedule (now : Int) (freshAt : Nat → Token) :
    ConcurrentState → List Bool → ConcurrentState
  | s, [] => s
  | s, who :: rest => runSchedule now freshAt (stepSystem now freshAt s who) rest

/-- Initial two-caller state: both callers at the start of GetToken, the
manager holding the given token, no network calls yet. -/
def initialConcurrent (t : Option Token) : ConcurrentState :=
  ⟨t, 0, ⟨0, none, none⟩, ⟨0, none, none⟩⟩

/-! Theorems settling the claims. -/

/-- C1, counterexample to the claim as stated: the claim says IsExpired is
true exactly when now plus the 5-minute buffer is at or after ExpiresAt.
At now = 0 with ExpiresAt exactly 5 minutes, now + buffer is at (hence at or
after) the expiry instant, yet IsExpired is false, because Go Time.After is
strict. -/
theorem isExpired_boundary_counterexample :
    (0 : Int) + fiveMinutes ≥ (Token.mk "a" "Bearer" "r" 300 "" fiveMinutes).expiresAt ∧
    Token.isExpired (Token.mk "a" "Bearer" "r" 300 "" fiveMinutes) 0 = false := by
  constructor
  · simp [fiveMinutes, nsPerSecond]
  · decide

/-- C1 (amended): IsExpired returns true exactly when the current time plus
the fixed 5-minute safety buffer is strictly after the stored absolute
expiry instant; in particular a Token with expiry one hour in the future is
not expired, a Token with expiry two minutes in the future is expired, and a
zero-value Token (expiry at the zero instant, at or before now) is always
expired. -/
theorem isExpired_strict_buffer (t : Token) (now : Int) :
    (t.isExpired now = true ↔ now + fiveMinutes > t.expiresAt) ∧
    (t.expiresAt = now + 3600 * nsPerSecond → t.isExpired now = false) ∧
    (t.expiresAt = now + 120 * nsPerSecond → t.isExpired now = true) ∧
    (t.expiresAt = 0 → 0 ≤ now → t.isExpired now = true) := by
  refine ⟨?_, ?_, ?_, ?_⟩
  · simp [Token.isExpired]
  · intro h
    simp [Token.isExpired, h, fiveMinutes, nsPerSecond]
  · intro h
    simp [Token.isExpired, h, fiveMinutes, nsPerSecond]
  · intro h hnow
    simp [Token.isExpired, h, fiveMinutes, nsPerSecond]
    omega

/-- C1 witness: a zero-value Token is expired at the positive instant 7. -/
theorem isExpired_strict_buffer_witness :
    Token.isExpired (Token.mk "" "" "" 0 "" 0) 7 = true :=
  (isExpired_strict_buffer (Token.mk "" "" "" 0 "" 0) 7).2.2.2 rfl (by decide)

/-- C2: when the stored Token is expired with a non-empty refresh credential
and the refresh succeeds, GetToken stores the new Token, invokes the
registered refresh callback exactly once with the new Token, and returns the
new Token; and on any fresh (non-expired) read the callback is never
invoked. -/
theorem getToken_refresh_success (m : TokenManager) (now : Int) (t newTok : Token)
    (h1 : m.token = some t) (h2 : t.isExpired now = true) (h3 : t.refreshToken ≠ "") :
    (m.getToken now (.ok newTok)).result = .ok newTok ∧
    (m.getToken now (.ok newTok)).manager.token = some newTok ∧
    (m.getToken now (.ok newTok)).callbackInvocations =
      (if m.hasCallback then [newTok] else []) ∧
    (∀ (m2 : TokenManager) (t2 : Token) (o : Except TokenRequestError Token),
      m2.token = some t2 → t2.isExpired now = false →
      (m2.getToken now o).callbackInvocations = []) := by
  refine ⟨?_, ?_, ?_, ?_⟩
  · simp [TokenManager.getToken, h1, h2, h3]
  · simp [TokenManager.getToken, h1, h2, h3]
  · simp [TokenManager.getToken, h1, h2, h3]
  · intro m2 t2 o hm2 ht2
    simp [TokenManager.getToken, hm2, ht2]

/-- C2 witness: a concrete refresh with a registered callback stores and
returns the new token and fires the callback once with it. -/
theorem getToken_refresh_success_witness :
    (TokenManager.getToken ⟨some (Token.mk "old" "Bearer" "rc" 0 "" 0), true⟩ 0
      (.ok (Token.mk "new" "Bearer" "r2" 3600 "" 3600000000000))).callbackInvocations =
      [Token.mk "new" "Bearer" "r2" 3600 "" 3600000000000] := by
  have h := (getToken_refresh_success
    ⟨some (Token.mk "old" "Bearer" "rc" 0 "" 0), true⟩ 0
    (Token.mk "old" "Bearer" "rc" 0 "" 0)
    (Token.mk "new" "Bearer" "r2" 3600 "" 3600000000000)
    rfl (by decide) (by decide)).2.2.1
  simpa using h

/-- C3: when the stored Token is expired with a non-empty refresh credential
and the refresh fails, GetToken returns an error wrapping the authorization
client error, and the manager still holds the stale Token unchanged (it does
not transition to the no-token state), so a later call can retry. -/
theorem getToken_refresh_failure (m : TokenManager) (now : Int) (t : Token)
    (e : TokenRequestError)
    (h1 : m.token = some t) (h2 : t.isExpired now = true) (h3 : t.refreshToken ≠ "") :
    (m.getToken now (.error e)).result = .error (.refreshFailed e) ∧
    (m.getToken now (.error e)).manager = m ∧
    (m.getToken now (.error e)).manager.token = some t := by
  refine ⟨?_, ?_, ?_⟩
  · simp [TokenManager.getToken, h1, h2, h3]
  · simp [TokenManager.getToken, h1, h2, h3]
  · simp [TokenManager.getToken, h1, h2, h3]

/-- C3 witness: a concrete failed refresh returns the wrapped error and
keeps the stale token. -/
theorem getToken_refresh_failure_witness :
    (TokenManager.getToken ⟨some (Token.mk "old" "Bearer" "rc" 0 "" 0), false⟩ 0
      (.error (.parseFailure "bad json"))).result =
      .error (.refreshFailed (.parseFailure "bad json")) :=
  (getToken_refresh_failure ⟨some (Token.mk "old" "Bearer" "rc" 0 "" 0), false⟩ 0
    (Token.mk "old" "Bearer" "rc" 0 "" 0) (.parseFailure "bad json")
    rfl (by decide) (by decide)).1

/-- C5: when the stored Token is expired and its refresh credential is
empty, GetToken fails with the refresh-unavailable error, performs no
network refresh call, and leaves the manager unchanged. -/
theorem getToken_refresh_unavailable (m : TokenManager) (now : Int) (t : Token)
    (o : Except TokenRequestError Token)
    (h1 : m.token = some t) (h2 : t.isExpired now = true) (h3 : t.refreshToken = "") :
    (m.getToken now o).result = .error .refreshUnavailable ∧
    (m.getToken now o).networkCalls = 0 ∧
    (m.getToken now o).manager = m := by
  refine ⟨?_, ?_, ?_⟩
  · simp [TokenManager.getToken, h1, h2, h3]
  · simp [TokenManager.getToken, h1, h2, h3]
  · simp [TokenManager.getToken, h1, h2, h3]

/-- C5 witness: a concrete expired token without refresh credential. -/
theorem getToken_refresh_unavailable_witness :
    (TokenManager.getToken ⟨some (Token.mk "old" "Bearer" "" 0 "" 0), false⟩ 0
      (.ok (Token.mk "new" "Bearer" "" 0 "" 0))).result =
      .error .refreshUnavailable :=
  (getToken_refresh_unavailable ⟨some (Token.mk "old" "Bearer" "" 0 "" 0), false⟩ 0
    (Token.mk "old" "Bearer" "" 0 "" 0) (.ok (Token.mk "new" "Bearer" "" 0 "" 0))
    rfl (by decide) rfl).1

/-- C6: when the stored Token is not expired, GetToken returns that exact
Token, performs no network call and mutates no state; and a repeated call on
the resulting manager again returns the identical Token, whatever the
network oracle would do. -/
theorem getToken_fresh_idempotent (m : TokenManager) (now : Int) (t : Token)
    (o : Except TokenRequestError Token)
    (h1 : m.token = some t) (h2 : t.isExpired now = false) :
    (m.getToken now o).result = .ok t ∧
    (m.getToken now o).manager = m ∧
    (m.getToken now o).networkCalls = 0 ∧
    (∀ o2 : Except TokenRequestError Token,
      ((m.getToken now o).manager.getToken now o2).result = .ok t) := by
  have hbase : m.getToken now o = ⟨.ok t, m, 0, []⟩ := by
    simp [TokenManager.getToken, h1, h2]
  refine ⟨?_, ?_, ?_, ?_⟩
  · rw [hbase]
  · rw [hbase]
  · rw [hbase]
  · intro o2
    rw [hbase]
    simp [TokenManager.getToken, h1, h2]

/-- C6 witness: a concrete fresh token is returned unchanged. -/
theorem getToken_fresh_idempotent_witness :
    (TokenManager.getToken ⟨some (Token.mk "a" "Bearer" "" 0 "" 1000000000000), false⟩ 0
      (.error (.parseFailure "ignored"))).result =
      .ok (Token.mk "a" "Bearer" "" 0 "" 1000000000000) :=
  (getToken_fresh_idempotent ⟨some (Token.mk "a" "Bearer" "" 0 "" 1000000000000), false⟩ 0
    (Token.mk "a" "Bearer" "" 0 "" 1000000000000) (.error (.parseFailure "ignored"))
    rfl (by decide)).1

/-- C7: for every grant exchange (authorization-code, refresh-token and
client-credentials all delegate to tokenRequest), a response with HTTP
status at least 400 yields the auth-exchange-failed error carrying the
status and raw body; a response below 400 whose body parses as JSON yields a
Token whose absolute expiry is the receipt instant plus expires_in
seconds. -/
theorem tokenRequest_spec (resp : HTTPResponse) (parsed : Option Token) (now : Int) :
    (resp.statusCode ≥ 400 →
      tokenRequest resp parsed now = .error (.authExchangeFailed resp.status resp.body)) ∧
    (∀ p : Token, resp.statusCode < 400 → parsed = some p →
      tokenRequest resp parsed now =
        .ok { p with expiresAt := now + p.expiresIn * nsPerSecond }) := by
  constructor
  · intro h
    simp [tokenRequest, h]
  · intro p hlt hp
    simp [tokenRequest, Nat.not_le.mpr hlt, hp]

/-- C7 witness: a concrete 400 response fails with the status and body. -/
theorem tokenRequest_spec_witness :
    tokenRequest ⟨400, "400 Bad Request", "oops"⟩ none 0 =
      .error (.authExchangeFailed "400 Bad Request" "oops") :=
  (tokenRequest_spec ⟨400, "400 Bad Request", "oops"⟩ none 0).1 (by decide)

/-- C9: GetToken on a manager in which no Token was ever set fails with the
no-token-available error, performs no network call and changes no state. -/
theorem getToken_no_token (m : TokenManager) (now : Int)
    (o : Except TokenRequestError Token) (h : m.token = none) :
    (m.getToken now o).result = .error .noTokenAvailable ∧
    (m.getToken now o).manager = m ∧
    (m.getToken now o).networkCalls = 0 := by
  refine ⟨?_, ?_, ?_⟩
  · simp [TokenManager.getToken, h]
  · simp [TokenManager.getToken, h]
  · simp [TokenManager.getToken, h]

/-- C9 witness: the empty manager. -/
theorem getToken_no_token_witness :
    (TokenManager.getToken ⟨none, false⟩ 0
      (.ok (Token.mk "x" "Bearer" "" 0 "" 0))).result = .error .noTokenAvailable :=
  (getToken_no_token ⟨none, false⟩ 0 (.ok (Token.mk "x" "Bearer" "" 0 "" 0)) rfl).1

/-- C4: the claim asserts at most one refresh network call under concurrent
GetToken calls, with all callers observing the same fresh Token.  The source
TokenManager has no mutex and GetToken takes none, so the check-expiry,
refresh, replace sequence is not mutually exclusive.  This run evaluates the
unsynchronized GetToken body for two concurrent callers on a manager holding
an expired Token with a refresh credential, under the interleaving in which
both callers pass the expiry check before either refreshes: two refresh
network calls happen and the two callers return different tokens. -/
theorem getToken_concurrent_double_refresh :
    (runSchedule 0
      (fun n => Token.mk (Nat.repr n) "Bearer" "r2" 3600 "" 1000000000000)
      (initialConcurrent (some (Token.mk "old" "Bearer" "rc" 3600 "" 0)))
      [false, true, false, true, false, true]).networkCalls = 2 ∧
    (runSchedule 0
      (fun n => Token.mk (Nat.repr n) "Bearer" "r2" 3600 "" 1000000000000)
      (initialConcurrent (some (Token.mk "old" "Bearer" "rc" 3600 "" 0)))
      [false, true, false, true, false, true]).caller0.result ≠
    (runSchedule 0
      (fun n => Token.mk (Nat.repr n) "Bearer" "r2" 3600 "" 1000000000000)
      (initialConcurrent (some (Token.mk "old" "Bearer" "rc" 3600 "" 0)))
      [false, true, false, true, false, true]).caller1.result := by
  decide

/-- C10, counterexample to the claim as stated: the claim says that for
every refreshed Token whose server-reported expires_in is at most 300
seconds, GetToken succeeds yet the returned Token already satisfies
IsExpired.  At expires_in exactly 300, the token issued at instant 0 has
ExpiresAt = 0 + 300s, GetToken succeeds, but IsExpired at instant 0 is
false, because now + 5min equals ExpiresAt and Go Time.After is strict. -/
theorem getToken_expiresIn_300_counterexample :
    tokenRequest ⟨200, "200 OK", "body"⟩ (some (Token.mk "new" "Bearer" "r2" 300 "" 0)) 0 =
      .ok (Token.mk "new" "Bearer" "r2" 300 "" 300000000000) ∧
    (TokenManager.getToken ⟨some (Token.mk "old" "Bearer" "rc" 3600 "" 0), false⟩ 0
      (.ok (Token.mk "new" "Bearer" "r2" 300 "" 300000000000))).result =
      .ok (Token.mk "new" "Bearer" "r2" 300 "" 300000000000) ∧
    Token.isExpired (Token.mk "new" "Bearer" "r2" 300 "" 300000000000) 0 = false := by
  refine ⟨?_, ?_, ?_⟩
  · simp [tokenRequest, nsPerSecond]
  · decide
  · decide

/-- C10 (amended): a successful GetToken does not guarantee a non-expired
result: after a successful refresh it returns the newly issued Token without
re-checking expiry, so whenever the refresh response parses with expires_in
strictly below 300 seconds, GetToken succeeds at the instant of receipt yet
the returned Token already satisfies IsExpired at that instant. -/
theorem getToken_can_return_already_expired (m : TokenManager) (now : Int)
    (t : Token) (resp : HTTPResponse) (p newTok : Token)
    (h1 : m.token = some t) (h2 : t.isExpired now = true) (h3 : t.refreshToken ≠ "")
    (hs : resp.statusCode < 400) (hp : tokenRequest resp (some p) now = .ok newTok)
    (he : p.expiresIn < 300) :
    (m.getToken now (.ok newTok)).result = .ok newTok ∧
    newTok.isExpired now = true := by
  have hreq : tokenRequest resp (some p) now =
      .ok { p with expiresAt := now + p.expiresIn * nsPerSecond } := by
    simp [tokenRequest, Nat.not_le.mpr hs]
  rw [hreq] at hp
  have hnew : newTok = { p with expiresAt := now + p.expiresIn * nsPerSecond } :=
    (Except.ok.inj hp).symm
  constructor
  · simp [TokenManager.getToken, h1, h2, h3]
  · subst hnew
    simp only [Token.isExpired, fiveMinutes, nsPerSecond]
    rw [decide_eq_true_iff]
    show now + p.expiresIn * 1000000000 < now + 300 * 1000000000
    omega

/-- C10 witness: a concrete refresh whose response reports expires_in = 299
succeeds while the returned token is already expired at receipt. -/
theorem getToken_can_return_already_expired_witness :
    (TokenManager.getToken ⟨some (Token.mk "old" "Bearer" "rc" 3600 "" 0), false⟩ 0
      (.ok (Token.mk "new" "Bearer" "r2" 299 "" 299000000000))).result =
      .ok (Token.mk "new" "Bearer" "r2" 299 "" 299000000000) ∧
    Token.isExpired (Token.mk "new" "Bearer" "r2" 299 "" 299000000000) 0 = true :=
  getToken_can_return_already_expired
    ⟨some (Token.mk "old" "Bearer" "rc" 3600 "" 0), false⟩ 0
    (Token.mk "old" "Bearer" "rc" 3600 "" 0) ⟨200, "200 OK", "body"⟩
    (Token.mk "new" "Bearer" "r2" 299 "" 0)
    (Token.mk "new" "Bearer" "r2" 299 "" 299000000000)
    rfl (by decide) (by decide) (by decide) (by decide) (by decide)

/-- Sorting of the four AuthURL parameters without scope: sort.Strings
leaves client_id, redirect_uri, response_type, state in place. -/
theorem sortByKey_noScope (a b x d : String) :
    sortByKey [("client_id", a), ("redirect_uri", b), ("response_type", x), ("state", d)] =
      [("client_id", a), ("redirect_uri", b), ("response_type", x), ("state", d)] := rfl

/-- Sorting of the five AuthURL parameters with scope: sort.Strings places
scope between response_type and state. -/
theorem sortByKey_withScope (a b x d s : String) :
    sortByKey [("client_id", a), ("redirect_uri", b), ("response_type", x), ("state", d), ("scope", s)] =
      [("client_id", a), ("redirect_uri", b), ("response_type", x), ("scope", s), ("state", d)] := rfl

/-- QueryEscape fixes the parameter name client_id. -/
theorem qe_client_id : queryEscape "client_id" = "client_id" := by decide

/-- QueryEscape fixes the parameter name redirect_uri. -/
theorem qe_redirect_uri : queryEscape "redirect_uri" = "redirect_uri" := by decide

/-- QueryEscape fixes the parameter name response_type. -/
theorem qe_response_type : queryEscape "response_type" = "response_type" := by decide

/-- QueryEscape fixes the parameter name state. -/
theorem qe_state : queryEscape "state" = "state" := by decide

/-- QueryEscape fixes the parameter name scope. -/
theorem qe_scope : queryEscape "scope" = "scope" := by decide

/-- QueryEscape fixes the value code. -/
theorem qe_code : queryEscape "code" = "code" := by decide

/-- Re-association helper joining an ampersand with the following
redirect_uri key. -/
theorem fold_redirect (y : String) : (y ++ "&") ++ "redirect_uri=" = y ++ "&redirect_uri=" := by
  rw [String.append_assoc]; rfl

/-- Re-association helper joining an ampersand with the following
response_type and state keys. -/
theorem fold_response_state (y : String) :
    (y ++ "&") ++ "response_type=code&state=" = y ++ "&response_type=code&state=" := by
  rw [String.append_assoc]; rfl

/-- Re-association helper joining an ampersand with the following
response_type and scope keys. -/
theorem fold_response_scope (y : String) :
    (y ++ "&") ++ "response_type=code&scope=" = y ++ "&response_type=code&scope=" := by
  rw [String.append_assoc]; rfl

/-- Re-association helper joining an ampersand with the following state
key. -/
theorem fold_state (y : String) : (y ++ "&") ++ "state=" = y ++ "&state=" := by
  rw [String.append_assoc]; rfl

/-- C8: for every state string, AuthURL returns the environment's authorize
endpoint, a question mark, and the urlencoded query holding exactly
client_id, redirect_uri (percent-encoded), response_type=code and state when
no scopes are configured — no scope parameter appears — and additionally
scope equal to the space-joined scopes when scopes are configured (inserted
at its sorted position, between response_type and state). -/
theorem authURL_spec (c : OAuthConfig) (state : String) :
    (c.scopes = [] →
      authURL c state =
        (if c.sandbox then SandboxAuthURL else ProductionAuthURL) ++
        "?client_id=" ++ queryEscape c.clientID ++
        "&redirect_uri=" ++ queryEscape c.redirectURL ++
        "&response_type=code&state=" ++ queryEscape state) ∧
    (c.scopes ≠ [] →
      authURL c state =
        (if c.sandbox then SandboxAuthURL else ProductionAuthURL) ++
        "?client_id=" ++ queryEscape c.clientID ++
        "&redirect_uri=" ++ queryEscape c.redirectURL ++
        "&response_type=code&scope=" ++ queryEscape (String.intercalate " " c.scopes) ++
        "&state=" ++ queryEscape state) := by
  constructor
  · intro h
    cases hsb : c.sandbox <;>
      simp only [authURL, valuesEncode, h, hsb, List.length_nil, gt_iff_lt, Nat.lt_irrefl,
        if_false, if_true, List.append_nil, sortByKey_noScope, encodePairs,
        qe_client_id, qe_redirect_uri, qe_response_type, qe_state, qe_code,
        SandboxAuthURL, ProductionAuthURL, Bool.false_eq_true, ite_false, ite_true] <;>
      simp [← String.append_assoc] <;>
      rw [fold_redirect, fold_response_state]
  · intro h
    have hlen : c.scopes.length > 0 := List.length_pos.mpr h
    cases hsb : c.sandbox <;>
      simp only [authURL, hsb, hlen, if_true, sortByKey_withScope, valuesEncode, encodePairs,
        qe_client_id, qe_redirect_uri, qe_response_type, qe_state, qe_scope, qe_code,
        SandboxAuthURL, ProductionAuthURL, Bool.false_eq_true, ite_false, ite_true,
        List.cons_append, List.nil_append, List.singleton_append] <;>
      simp [← String.append_assoc] <;>
      rw [fold_redirect, fold_response_scope, fold_state]

/-- C8 witness: the reference example — client abc, redirect
http://localhost/cb, no scopes, state xyz. -/
theorem authURL_spec_witness :
    authURL ⟨"abc", "secret", "http://localhost/cb", false, []⟩ "xyz" =
      "https://wise.com/oauth/authorize?client_id=abc&redirect_uri=http%3A%2F%2Flocalhost%2Fcb&response_type=code&state=xyz" := by
  have h := (authURL_spec ⟨"abc", "secret", "http://localhost/cb", false, []⟩ "xyz").1 rfl
  rw [h]
  decide

end Wise
